import Mathlib

/-!
Shallow embedding of the core of the `shipping-backend` repository
(TypeScript, Fastify) and proofs about it.

Embedded subsystems:
* the quote calculation engine with cache-aside pricing
  (`src/application/use-cases/shipments/quote-shipment.ts`);
* the WebSocket connection registry
  (`src/infrastructure/web/websocket/websocket-service.ts`);
* the subscription gate
  (`src/infrastructure/web/routes/websocket-routes.ts` together with
  `src/application/use-cases/shipments/get-shipment-tracking-details.ts`);
* the status transition use case
  (`src/application/use-cases/shipments/update-shipment-status.ts`);
* the notification listener
  (`src/infrastructure/database/postgres-notification-service.ts`).

Modelling conventions: JavaScript numbers are embedded as `ℚ` (the code
performs only ring operations, division by the constant 2500, `Math.ceil`
and `Math.max`); `Math.ceil` is `Int.ceil` on `ℚ`.  Asynchronous calls to
repositories and to the cache are embedded as an explicit environment of
pure functions, and the calls a use case performs are recorded in an
explicit effect list, in the order the code performs them.  `throw` of a
domain error is embedded as `Except.error`; JSON round-tripping through
the cache (`JSON.parse ∘ JSON.stringify = id`) is embedded by letting the
cache hold the structured value.
-/

set_option autoImplicit false

namespace Shipping

/-- City entity (`src/domain/entities/city.ts`): id, name, departmentId,
zoneId. -/
structure City where
  id : String
  name : String
  departmentId : String
  zoneId : String
deriving DecidableEq, Repr

/-- Rate entity (`src/domain/entities/rate.ts`): directional zone pair and
price per kilogram. -/
structure Rate where
  id : String
  originZoneId : String
  destinationZoneId : String
  pricePerKg : ℚ
deriving DecidableEq, Repr

/-- Request of `QuoteShipment.execute` (quote-shipment.ts, `QuoteShipmentRequest`). -/
structure QuoteShipmentRequest where
  originCityId : String
  destinationCityId : String
  packageWeightKg : ℚ
  packageLengthCm : ℚ
  packageWidthCm : ℚ
  packageHeightCm : ℚ
deriving DecidableEq, Repr

/-- Response of `QuoteShipment.execute` (quote-shipment.ts, `QuoteShipmentResponse`). -/
structure QuoteShipmentResponse where
  originCityId : String
  destinationCityId : String
  packageWeightKg : ℚ
  packageLengthCm : ℚ
  packageWidthCm : ℚ
  packageHeightCm : ℚ
  calculatedWeightKg : ℚ
  quotedValue : ℚ
deriving DecidableEq, Repr

/-- Outcome of the single `cacheService.get(cacheKey)` call performed by
`QuoteShipment.execute`: a hit (the cached, already-parsed response), a
miss (`null`), or a thrown cache error (caught by the `try/catch` around
the read). -/
inductive CacheGetOutcome where
  | hit (cached : QuoteShipmentResponse)
  | miss
  | cacheError
deriving DecidableEq, Repr

/-- Outcome of the single `cacheService.set(...)` call performed by
`QuoteShipment.execute` after a fresh computation: success, or a thrown
cache error (caught by the `try/catch` around the write). -/
inductive CacheSetOutcome where
  | ok
  | cacheError
deriving DecidableEq, Repr

/-- Collaborators of `QuoteShipment` (constructor parameters
`cityRepository`, `rateRepository`, `cacheService`), embedded as pure
functions / outcomes for one `execute` run. -/
structure QuoteEnv where
  cacheGet : CacheGetOutcome
  findCityById : String → Option City
  findRateByZoneIds : String → String → Option Rate
  cacheSet : CacheSetOutcome

/-- Domain errors thrown by `QuoteShipment.execute`:
`SameOriginDestinationCityError` and `NotFoundError(message)`. -/
inductive QuoteError where
  | sameOriginDestinationCity
  | notFound (message : String)
deriving DecidableEq, Repr

/-- External calls performed by `QuoteShipment.execute`, in program
order. -/
inductive QuoteEffect where
  | cacheGet (key : String)
  | cityFindById (id : String)
  | rateFindByZoneIds (originZoneId : String) (destinationZoneId : String)
  | cacheSet (key : String)
deriving DecidableEq, Repr

/-- Volumetric factor for weight calculation (`volumetricFactor = 2500`). -/
def volumetricFactor : ℚ := 2500

/-- Embedding of `Math.ceil` on JS numbers embedded as `ℚ`, via the
computable ceiling on `Rat`; `mathCeil_eq_ceil` below identifies it with
the mathematical ceiling `⌈·⌉`. -/
def mathCeil (x : ℚ) : ℚ := (Rat.ceil x : ℚ)

/-- Cache key of quote-shipment.ts line 146: ordered concatenation of the
six request fields. -/
def quoteCacheKey (request : QuoteShipmentRequest) : String :=
  "quote:" ++ request.originCityId ++ ":" ++ request.destinationCityId ++ ":" ++
    toString request.packageWeightKg ++ ":" ++ toString request.packageLengthCm ++ ":" ++
    toString request.packageWidthCm ++ ":" ++ toString request.packageHeightCm

/-- Embedding of `QuoteShipment.execute` (quote-shipment.ts lines 128-243).
Returns the result (`Except` for `throw`) together with the list of cache
and repository calls performed, in order.

The `try/catch` around the cache read makes `miss` and `cacheError`
behave identically (the code logs and proceeds); the `try/catch` around
the cache write makes the returned result independent of the write
outcome. -/
def QuoteShipment.execute (env : QuoteEnv) (request : QuoteShipmentRequest) :
    Except QuoteError QuoteShipmentResponse × List QuoteEffect :=
  -- Check for same origin and destination city ID before any DB search
  if request.originCityId = request.destinationCityId then
    (Except.error QuoteError.sameOriginDestinationCity, [])
  else
    let cacheKey := quoteCacheKey request
    match env.cacheGet with
    | CacheGetOutcome.hit cached =>
      -- If found in cache, parse and return it
      (Except.ok cached, [QuoteEffect.cacheGet cacheKey])
    | _ =>
      -- miss, or error logged by the catch: proceed with business logic
      match env.findCityById request.originCityId with
      | none =>
        (Except.error (QuoteError.notFound "Origin city not found"),
          [QuoteEffect.cacheGet cacheKey, QuoteEffect.cityFindById request.originCityId])
      | some originCity =>
        match env.findCityById request.destinationCityId with
        | none =>
          (Except.error (QuoteError.notFound "Destination city not found"),
            [QuoteEffect.cacheGet cacheKey, QuoteEffect.cityFindById request.originCityId,
              QuoteEffect.cityFindById request.destinationCityId])
        | some destinationCity =>
          match env.findRateByZoneIds originCity.zoneId destinationCity.zoneId with
          | none =>
            (Except.error (QuoteError.notFound "Shipping rate not found for the specified route"),
              [QuoteEffect.cacheGet cacheKey, QuoteEffect.cityFindById request.originCityId,
                QuoteEffect.cityFindById request.destinationCityId,
                QuoteEffect.rateFindByZoneIds originCity.zoneId destinationCity.zoneId])
          | some rate =>
            -- Perform calculations
            let volumetricWeight :=
              request.packageLengthCm * request.packageWidthCm * request.packageHeightCm
            let volumetricWeightKgRaw := volumetricWeight / volumetricFactor
            let volumetricWeightKg : ℚ := mathCeil volumetricWeightKgRaw
            let calculatedWeightKg := max request.packageWeightKg volumetricWeightKg
            let quotedValue := calculatedWeightKg * rate.pricePerKg
            let result : QuoteShipmentResponse :=
              { originCityId := originCity.id
                destinationCityId := destinationCity.id
                packageWeightKg := request.packageWeightKg
                packageLengthCm := request.packageLengthCm
                packageWidthCm := request.packageWidthCm
                packageHeightCm := request.packageHeightCm
                calculatedWeightKg := calculatedWeightKg
                quotedValue := quotedValue }
            -- store in cache (outcome env.cacheSet caught and logged), then return
            (Except.ok result,
              [QuoteEffect.cacheGet cacheKey, QuoteEffect.cityFindById request.originCityId,
                QuoteEffect.cityFindById request.destinationCityId,
                QuoteEffect.rateFindByZoneIds originCity.zoneId destinationCity.zoneId,
                QuoteEffect.cacheSet cacheKey])

/-! ## WebSocket connection registry
(`src/infrastructure/web/websocket/websocket-service.ts`)

A `WebSocket` connection object is embedded as an identity (`WebSocketConn`);
its mutable `readyState` is embedded as an external predicate `isOpen`
passed to `notifyShipmentStatusUpdate`.  The registry state
`ShipmentConnections = { [shipmentId]: Set<WebSocket> }` is embedded as a
total function `String → Finset WebSocketConn` with default `∅` (the code
deletes a key exactly when its set becomes empty, so key presence is
equivalent to non-emptiness and the deletion is invisible in this view). -/

/-- Identity of a `WebSocket` connection object. -/
structure WebSocketConn where
  id : ℕ
deriving DecidableEq, Repr

/-- Registry state: shipment id to set of subscribed connections. -/
def ShipmentConnections : Type := String → Finset WebSocketConn

/-- Initial registry state: `connections = {}`. -/
def emptyConnections : ShipmentConnections := fun _ => ∅

/-- Notification message pushed over WebSocket
(websocket-service.ts, `ShipmentStatusUpdateMessage`). -/
structure ShipmentStatusUpdateMessage where
  shipmentId : String
  newStatusId : String
  newStatusName : String
  timestamp : String
deriving DecidableEq, Repr

/-- Embedding of `JSON.stringify(message)` for the fixed four-field message
shape. -/
def serializeMessage (m : ShipmentStatusUpdateMessage) : String :=
  "\x7b\"shipmentId\":\"" ++ m.shipmentId ++ "\",\"newStatusId\":\"" ++ m.newStatusId ++
    "\",\"newStatusName\":\"" ++ m.newStatusName ++ "\",\"timestamp\":\"" ++ m.timestamp ++
    "\"\x7d"

/-- Embedding of `WebSocketService.registerConnection` (websocket-service.ts
lines 17-40): create the set if absent and add `ws`.  The `close`/`error`
event handlers it installs call `removeConnection` later, outside this
state transition; they are not part of the registry update itself. -/
def WebSocketService.registerConnection (shipmentId : String) (ws : WebSocketConn)
    (conns : ShipmentConnections) : ShipmentConnections :=
  fun k => if k = shipmentId then insert ws (conns shipmentId) else conns k

/-- Embedding of `WebSocketService.removeConnection` (websocket-service.ts
lines 42-54): delete `ws` from the set (and drop the key when the set
empties, invisible in the total-function view). -/
def WebSocketService.removeConnection (shipmentId : String) (ws : WebSocketConn)
    (conns : ShipmentConnections) : ShipmentConnections :=
  fun k => if k = shipmentId then (conns shipmentId).erase ws else conns k

/-- Result of one `notifyShipmentStatusUpdate` call: the registry state
afterwards, the set of connections the serialized message was sent to, and
the serialized payload. -/
structure NotifyResult where
  connections : ShipmentConnections
  sentTo : Finset WebSocketConn
  payload : String

/-- Embedding of `WebSocketService.notifyShipmentStatusUpdate`
(websocket-service.ts lines 56-79): look up the subscriber set, serialize
the message once, and send it to each client whose `readyState` is `OPEN`.
Clients that are not open are skipped; the method performs no
`removeConnection` and leaves `connections` untouched. -/
def WebSocketService.notifyShipmentStatusUpdate (isOpen : WebSocketConn → Bool)
    (conns : ShipmentConnections) (shipmentId : String)
    (message : ShipmentStatusUpdateMessage) : NotifyResult :=
  { connections := conns
    sentTo := (conns shipmentId).filter (fun c => isOpen c = true)
    payload := serializeMessage message }

/-- One registry operation, for reasoning about reachable registry
states. -/
inductive RegistryOp where
  | register (shipmentId : String) (ws : WebSocketConn)
  | unregister (shipmentId : String) (ws : WebSocketConn)
  | publish (shipmentId : String) (message : ShipmentStatusUpdateMessage)
deriving DecidableEq, Repr

/-- State transition of a single registry operation. -/
def applyRegistryOp (isOpen : WebSocketConn → Bool) (conns : ShipmentConnections) :
    RegistryOp → ShipmentConnections
  | RegistryOp.register shipmentId ws => WebSocketService.registerConnection shipmentId ws conns
  | RegistryOp.unregister shipmentId ws => WebSocketService.removeConnection shipmentId ws conns
  | RegistryOp.publish shipmentId message =>
    (WebSocketService.notifyShipmentStatusUpdate isOpen conns shipmentId message).connections

/-- Run a sequence of registry operations from a starting state. -/
def runRegistryOps (isOpen : WebSocketConn → Bool) :
    List RegistryOp → ShipmentConnections → ShipmentConnections
  | [], conns => conns
  | op :: rest, conns => runRegistryOps isOpen rest (applyRegistryOp isOpen conns op)

/-! ## Subscription gate
(`src/infrastructure/web/routes/websocket-routes.ts` and
`src/application/use-cases/shipments/get-shipment-tracking-details.ts`) -/

/-- Shipment entity as consumed by the use cases
(`src/domain/entities/shipment.ts`); `Date` fields are embedded as epoch
milliseconds. -/
structure Shipment where
  id : String
  userId : String
  originCityId : String
  destinationCityId : String
  packageWeightKg : ℚ
  packageLengthCm : ℚ
  packageWidthCm : ℚ
  packageHeightCm : ℚ
  calculatedWeightKg : ℚ
  quotedValue : ℚ
  currentStatusId : String
  updatedAt : ℕ
deriving DecidableEq, Repr

/-- Shipment status entity (`src/domain/entities/shipment-status.ts`). -/
structure ShipmentStatus where
  id : String
  name : String
deriving DecidableEq, Repr

/-- Status history row (`src/domain/entities/shipment-status-history.ts`). -/
structure ShipmentStatusHistoryEntry where
  statusId : String
  timestamp : ℕ
deriving DecidableEq, Repr

/-- History entry of the tracking response
(get-shipment-tracking-details.ts, `TrackingHistoryEntry`). -/
structure TrackingHistoryEntry where
  statusName : String
  timestamp : ℕ
deriving DecidableEq, Repr

/-- Response of `GetShipmentTrackingDetails.execute`. -/
structure GetShipmentTrackingDetailsResponse where
  shipmentId : String
  originCity : String
  destinationCity : String
  packageWeightKg : ℚ
  packageLengthCm : ℚ
  packageWidthCm : ℚ
  packageHeightCm : ℚ
  calculatedWeightKg : ℚ
  quotedValue : ℚ
  currentStatus : String
  trackingHistory : List TrackingHistoryEntry
  lastUpdate : ℕ
deriving DecidableEq, Repr

/-- Errors thrown by `GetShipmentTrackingDetails.execute`:
`NotFoundError` and `AuthorizationError`, each carrying its message. -/
inductive TrackingError where
  | notFound (message : String)
  | authorization (message : String)
deriving DecidableEq, Repr

/-- Collaborators of `GetShipmentTrackingDetails`, embedded as pure
functions. -/
structure TrackingEnv where
  findShipmentById : String → Option Shipment
  findHistoryByShipmentId : String → List ShipmentStatusHistoryEntry
  findAllStatuses : List ShipmentStatus
  findStatusById : String → Option ShipmentStatus
  findCityById : String → Option City

/-- Lookup in the `Map` the code builds from `findAll()` by
`statusMap.set(status.id, status.name)`: later entries overwrite earlier
ones, so the lookup returns the name of the last status with the given
id. -/
def statusMapGet (statuses : List ShipmentStatus) (statusId : String) : Option String :=
  (statuses.reverse.find? (fun s => s.id = statusId)).map (fun s => s.name)

/-- Embedding of `GetShipmentTrackingDetails.execute`
(get-shipment-tracking-details.ts lines 41-120): fetch the shipment
(`NotFoundError` if absent), check ownership (`AuthorizationError` if
`shipment.userId !== userId`), then assemble the tracking details. -/
def GetShipmentTrackingDetails.execute (env : TrackingEnv)
    (shipmentId userId : String) :
    Except TrackingError GetShipmentTrackingDetailsResponse :=
  match env.findShipmentById shipmentId with
  | none => Except.error (TrackingError.notFound "Shipment not found")
  | some shipment =>
    if shipment.userId ≠ userId then
      Except.error (TrackingError.authorization "Access denied to this shipment's details")
    else
      let historyEntries := env.findHistoryByShipmentId shipmentId
      let allStatuses := env.findAllStatuses
      let trackingHistory : List TrackingHistoryEntry := historyEntries.map (fun entry =>
        { statusName := (statusMapGet allStatuses entry.statusId).getD "Unknown Status"
          timestamp := entry.timestamp })
      let currentStatusName :=
        match env.findStatusById shipment.currentStatusId with
        | some currentStatusEntity => currentStatusEntity.name
        | none => "Unknown Status"
      match env.findCityById shipment.originCityId with
      | none => Except.error (TrackingError.notFound "Origin city for shipment not found")
      | some originCity =>
        match env.findCityById shipment.destinationCityId with
        | none =>
          Except.error (TrackingError.notFound "Destination city for shipment not found")
        | some destinationCity =>
          Except.ok
            { shipmentId := shipment.id
              originCity := originCity.name
              destinationCity := destinationCity.name
              packageWeightKg := shipment.packageWeightKg
              packageLengthCm := shipment.packageLengthCm
              packageWidthCm := shipment.packageWidthCm
              packageHeightCm := shipment.packageHeightCm
              calculatedWeightKg := shipment.calculatedWeightKg
              quotedValue := shipment.quotedValue
              currentStatus := currentStatusName
              trackingHistory := trackingHistory
              lastUpdate := shipment.updatedAt }

/-- Message of a thrown tracking error (`error.message` in the route's
`catch`). -/
def TrackingError.message : TrackingError → String
  | TrackingError.notFound m => m
  | TrackingError.authorization m => m

/-- Observable outcome of one run of the WebSocket route handler. -/
structure WsRouteOutcome where
  connections : ShipmentConnections
  registered : Bool
  closedWith : Option (ℕ × String)
  errorSent : Option String

/-- Embedding of the `/ws/shipments/:id/track` handler
(websocket-routes.ts lines 20-49): run `getShipmentTrackingDetails.execute`;
on success call `webSocketService.registerConnection`; on any thrown error
send `{error: message}` on the socket and close it with code 1008
(policy violation) and the message as reason, without registering. -/
def websocketRoutesHandler (env : TrackingEnv) (conns : ShipmentConnections)
    (shipmentId userId : String) (connection : WebSocketConn) : WsRouteOutcome :=
  match GetShipmentTrackingDetails.execute env shipmentId userId with
  | Except.ok _ =>
    { connections := WebSocketService.registerConnection shipmentId connection conns
      registered := true
      closedWith := none
      errorSent := none }
  | Except.error e =>
    { connections := conns
      registered := false
      closedWith := some (1008, e.message)
      errorSent := some ("\x7b\"error\":\"" ++ e.message ++ "\"\x7d") }

/-! ## Status transition use case
(`src/application/use-cases/shipments/update-shipment-status.ts`) -/

/-- Collaborators of `UpdateShipmentStatus` (`shipmentRepository`,
`shipmentStatusRepository`). -/
structure UpdateEnv where
  findShipmentById : String → Option Shipment
  findStatusById : String → Option ShipmentStatus

/-- Error thrown by `UpdateShipmentStatus.execute`. -/
inductive UpdateError where
  | notFound (message : String)
deriving DecidableEq, Repr

/-- External calls performable by `UpdateShipmentStatus.execute`, in
program order.  `updateStatus` is the only mutating call; per the design,
the database trigger that appends the history row and emits the
change notification fires exactly on `updateStatus`. -/
inductive UpdateEffect where
  | findShipmentById (id : String)
  | findStatusById (id : String)
  | updateStatus (shipmentId : String) (statusId : String)
deriving DecidableEq, Repr

/-- Embedding of `UpdateShipmentStatus.execute`
(update-shipment-status.ts lines 85-111): fetch shipment (`NotFoundError`
if absent), fetch status (`NotFoundError` if absent); if
`shipment.currentStatusId === newStatus.id` return without updating;
otherwise call `shipmentRepository.updateStatus`. -/
def UpdateShipmentStatus.execute (env : UpdateEnv) (shipmentId newStatusId : String) :
    Except UpdateError Unit × List UpdateEffect :=
  match env.findShipmentById shipmentId with
  | none =>
    (Except.error (UpdateError.notFound "Shipment not found"),
      [UpdateEffect.findShipmentById shipmentId])
  | some shipment =>
    match env.findStatusById newStatusId with
    | none =>
      (Except.error (UpdateError.notFound "Shipment status not found"),
        [UpdateEffect.findShipmentById shipmentId, UpdateEffect.findStatusById newStatusId])
    | some newStatus =>
      if shipment.currentStatusId = newStatus.id then
        (Except.ok (),
          [UpdateEffect.findShipmentById shipmentId, UpdateEffect.findStatusById newStatusId])
      else
        (Except.ok (),
          [UpdateEffect.findShipmentById shipmentId, UpdateEffect.findStatusById newStatusId,
            UpdateEffect.updateStatus shipmentId newStatus.id])

/-! ## Notification listener
(`src/infrastructure/database/postgres-notification-service.ts`) -/

/-- Outcome of the initial connection phase of `startListening` (the
`await this.pg.connect()` / `LISTEN` query inside its `try` block). -/
inductive ListenConnectOutcome where
  | connected
  | connectionFailed (message : String)
deriving DecidableEq, Repr

/-- Observable outcome of one `startListening()` call. -/
structure StartListeningResult where
  /-- Error propagated to the caller (`none` means the returned promise
  resolves normally). -/
  errorThrownToCaller : Option String
  /-- Number of connection attempts made internally. -/
  connectionAttempts : ℕ
  /-- Whether the error path logged via `console.error`. -/
  errorLogged : Bool
  /-- Whether the service ended up listening on the channel. -/
  listening : Bool
deriving DecidableEq, Repr

/-- Embedding of `PostgresNotificationService.startListening`
(postgres-notification-service.ts lines 18-64): one connection attempt;
on failure the `catch` block logs `console.error` and the method returns
normally — the error is not rethrown and no retry is made. -/
def PostgresNotificationService.startListening :
    ListenConnectOutcome → StartListeningResult
  | ListenConnectOutcome.connected =>
    { errorThrownToCaller := none
      connectionAttempts := 1
      errorLogged := false
      listening := true }
  | ListenConnectOutcome.connectionFailed _ =>
    { errorThrownToCaller := none
      connectionAttempts := 1
      errorLogged := true
      listening := false }

/-! ## Concrete instances

Sample cities, rates, shipments and registry states used to evaluate the
embedded operations on closed inputs (two zones with a directional rate
`zone-x → zone-y` of 10000 per kg, mirroring the repository's unit-test
fixtures). -/

/-- Example origin city, in zone `zone-x`. -/
def cityA : City :=
  { id := "city-a", name := "Pereira", departmentId := "dept-1", zoneId := "zone-x" }

/-- Example destination city, in zone `zone-y`. -/
def cityB : City :=
  { id := "city-b", name := "Bogota", departmentId := "dept-2", zoneId := "zone-y" }

/-- Example rate `zone-x → zone-y` at 10000 per kg. -/
def rateXY : Rate :=
  { id := "rate-1", originZoneId := "zone-x", destinationZoneId := "zone-y", pricePerKg := 10000 }

/-- City repository holding exactly `cityA` and `cityB`. -/
def exFindCityById : String → Option City := fun id =>
  if id = "city-a" then some cityA else if id = "city-b" then some cityB else none

/-- Rate repository holding exactly `rateXY`. -/
def exFindRateByZoneIds : String → String → Option Rate :=
  fun originZoneId destinationZoneId =>
    if originZoneId = "zone-x" ∧ destinationZoneId = "zone-y" then some rateXY else none

/-- Quote environment: cold cache, the two example cities and the example
rate. -/
def exQuoteEnv : QuoteEnv :=
  { cacheGet := CacheGetOutcome.miss
    findCityById := exFindCityById
    findRateByZoneIds := exFindRateByZoneIds
    cacheSet := CacheSetOutcome.ok }

/-- A parsed response as it could sit in the cache. -/
def cachedQuoteResponse : QuoteShipmentResponse :=
  { originCityId := "city-a", destinationCityId := "city-b"
    packageWeightKg := 1, packageLengthCm := 1, packageWidthCm := 1, packageHeightCm := 1
    calculatedWeightKg := 1, quotedValue := 10000 }

/-- Quote environment whose cache read hits. -/
def hitQuoteEnv : QuoteEnv :=
  { exQuoteEnv with cacheGet := CacheGetOutcome.hit cachedQuoteResponse }

/-- The spec's worked example request: 5 kg, 30x20x15 cm. -/
def exQuoteRequest : QuoteShipmentRequest :=
  { originCityId := "city-a", destinationCityId := "city-b"
    packageWeightKg := 5, packageLengthCm := 30, packageWidthCm := 20, packageHeightCm := 15 }

/-- A request with non-integral weight 5.5 kg and dimensions 10x10x10 cm. -/
def fractionalQuoteRequest : QuoteShipmentRequest :=
  { originCityId := "city-a", destinationCityId := "city-b"
    packageWeightKg := 11 / 2, packageLengthCm := 10, packageWidthCm := 10, packageHeightCm := 10 }

/-- A request whose origin and destination city ids coincide. -/
def sameCityQuoteRequest : QuoteShipmentRequest :=
  { originCityId := "city-a", destinationCityId := "city-a"
    packageWeightKg := 5, packageLengthCm := 30, packageWidthCm := 20, packageHeightCm := 15 }

/-- Example WebSocket connection. -/
def wsA : WebSocketConn := { id := 0 }

/-- Another example WebSocket connection. -/
def wsB : WebSocketConn := { id := 1 }

/-- Example status update message. -/
def exMessage : ShipmentStatusUpdateMessage :=
  { shipmentId := "ship-1", newStatusId := "st-2", newStatusName := "Shipped"
    timestamp := "2026-10-11T00:00:00Z" }

/-- Connection-state oracle under which every connection is `OPEN`. -/
def allOpen : WebSocketConn → Bool := fun _ => true

/-- Connection-state oracle under which only `wsB` is `OPEN`. -/
def onlyWsBOpen : WebSocketConn → Bool := fun c => c == wsB

/-- Registry state with `wsA` and `wsB` subscribed to shipment
`ship-1`. -/
def twoSubscriberState : ShipmentConnections :=
  WebSocketService.registerConnection "ship-1" wsB
    (WebSocketService.registerConnection "ship-1" wsA emptyConnections)

/-- Example statuses. -/
def statusQuoted : ShipmentStatus := { id := "st-1", name := "Quoted" }

/-- Example status distinct from `statusQuoted`. -/
def statusShipped : ShipmentStatus := { id := "st-2", name := "Shipped" }

/-- Example shipment owned by `user-1`, currently in status `st-1`. -/
def exShipment : Shipment :=
  { id := "ship-1", userId := "user-1", originCityId := "city-a", destinationCityId := "city-b"
    packageWeightKg := 5, packageLengthCm := 30, packageWidthCm := 20, packageHeightCm := 15
    calculatedWeightKg := 5, quotedValue := 50000, currentStatusId := "st-1"
    updatedAt := 1760140800000 }

/-- Shipment repository holding exactly `exShipment`. -/
def exFindShipmentById : String → Option Shipment := fun id =>
  if id = "ship-1" then some exShipment else none

/-- Status repository holding `statusQuoted` and `statusShipped`. -/
def exFindStatusById : String → Option ShipmentStatus := fun id =>
  if id = "st-1" then some statusQuoted else if id = "st-2" then some statusShipped else none

/-- Tracking environment over the example entities. -/
def exTrackingEnv : TrackingEnv :=
  { findShipmentById := exFindShipmentById
    findHistoryByShipmentId := fun _ => [{ statusId := "st-1", timestamp := 1760140800000 }]
    findAllStatuses := [statusQuoted, statusShipped]
    findStatusById := exFindStatusById
    findCityById := exFindCityById }

/-- Update environment over the example entities. -/
def exUpdateEnv : UpdateEnv :=
  { findShipmentById := exFindShipmentById
    findStatusById := exFindStatusById }

/-! ## Theorems -/

/-- Sanity lemma: the embedded `Math.ceil` is the mathematical ceiling. -/
theorem mathCeil_eq_ceil (x : ℚ) : mathCeil x = ((Int.ceil x : ℤ) : ℚ) := by
  unfold mathCeil
  congr 1
  unfold Rat.ceil
  split
  · next h =>
    conv_rhs => rw [← Rat.coe_int_num_of_den_eq_one h]
    rw [Int.ceil_intCast]
  · next h =>
    rw [← Rat.floor_def]
    have hne : ((⌊x⌋ : ℤ) : ℚ) ≠ x := by
      intro heq
      have hden := Rat.den_intCast ⌊x⌋
      rw [heq] at hden
      exact h hden
    have hlt : ((⌊x⌋ : ℤ) : ℚ) < x := lt_of_le_of_ne (Int.floor_le x) hne
    have hup := Int.lt_floor_add_one x
    symm
    rw [Int.ceil_eq_iff]
    constructor
    · push_cast
      linarith
    · push_cast
      linarith

/-- Helper: on a cache miss with distinct cities both present and a rate
for their zone pair, `QuoteShipment.execute` returns the freshly computed
response, with `calculatedWeightKg` the max of the actual weight and the
ceiled volumetric weight and `quotedValue` that max times the rate. -/
theorem execute_fresh_eq (env : QuoteEnv)
    (request : QuoteShipmentRequest) (originCity destinationCity : City) (rate : Rate)
    (hne : request.originCityId ≠ request.destinationCityId)
    (hmiss : env.cacheGet = CacheGetOutcome.miss)
    (horigin : env.findCityById request.originCityId = some originCity)
    (hdest : env.findCityById request.destinationCityId = some destinationCity)
    (hrate : env.findRateByZoneIds originCity.zoneId destinationCity.zoneId = some rate) :
    (QuoteShipment.execute env request).fst = Except.ok
      { originCityId := originCity.id
        destinationCityId := destinationCity.id
        packageWeightKg := request.packageWeightKg
        packageLengthCm := request.packageLengthCm
        packageWidthCm := request.packageWidthCm
        packageHeightCm := request.packageHeightCm
        calculatedWeightKg := max request.packageWeightKg
          (mathCeil (request.packageLengthCm * request.packageWidthCm *
            request.packageHeightCm / 2500))
        quotedValue := max request.packageWeightKg
          (mathCeil (request.packageLengthCm * request.packageWidthCm *
            request.packageHeightCm / 2500)) * rate.pricePerKg } := by
  unfold QuoteShipment.execute volumetricFactor
  rw [if_neg hne, hmiss]
  simp [horigin, hdest, hrate]

/-- C1: on a cache miss with distinct cities both present and a rate for
their zone pair, `quote()` returns
`calculatedWeightKg = max(packageWeightKg, ceil(l*w*h / 2500))` and
`quotedValue = calculatedWeightKg * rate.pricePerKg`. -/
theorem quote_cache_miss_returns_weight_formula (env : QuoteEnv)
    (request : QuoteShipmentRequest) (originCity destinationCity : City) (rate : Rate)
    (hne : request.originCityId ≠ request.destinationCityId)
    (hmiss : env.cacheGet = CacheGetOutcome.miss)
    (horigin : env.findCityById request.originCityId = some originCity)
    (hdest : env.findCityById request.destinationCityId = some destinationCity)
    (hrate : env.findRateByZoneIds originCity.zoneId destinationCity.zoneId = some rate) :
    (QuoteShipment.execute env request).fst = Except.ok
      { originCityId := originCity.id
        destinationCityId := destinationCity.id
        packageWeightKg := request.packageWeightKg
        packageLengthCm := request.packageLengthCm
        packageWidthCm := request.packageWidthCm
        packageHeightCm := request.packageHeightCm
        calculatedWeightKg := max request.packageWeightKg
          (mathCeil (request.packageLengthCm * request.packageWidthCm *
            request.packageHeightCm / 2500))
        quotedValue := max request.packageWeightKg
          (mathCeil (request.packageLengthCm * request.packageWidthCm *
            request.packageHeightCm / 2500)) * rate.pricePerKg } :=
  execute_fresh_eq env request originCity destinationCity rate hne hmiss horigin hdest hrate

/-- Witness for C1: the spec's example (5 kg, 30x20x15 cm, 10000 per kg)
yields `calculatedWeightKg = 5` and `quotedValue = 50000`. -/
theorem quote_cache_miss_example_five_kg :
    (QuoteShipment.execute exQuoteEnv exQuoteRequest).fst = Except.ok
      { originCityId := "city-a", destinationCityId := "city-b"
        packageWeightKg := 5, packageLengthCm := 30, packageWidthCm := 20
        packageHeightCm := 15, calculatedWeightKg := 5, quotedValue := 50000 } := by
  rw [quote_cache_miss_returns_weight_formula exQuoteEnv exQuoteRequest cityA cityB rateXY
    (by decide) rfl rfl rfl rfl]
  norm_num [exQuoteRequest, cityA, cityB, rateXY, mathCeil, Rat.ceil]

/-- C3 counterexample: for weight 5.5 kg, dimensions 10x10x10 cm and rate
10000 per kg, the code returns `quotedValue = 5.5 * 10000 = 55000`,
whereas the claimed formula `ceil(max(weightKg, ceil(l*w*h/2500))) *
pricePerKg` gives `6 * 10000 = 60000`: the weight used for pricing is not
ceiled. -/
theorem quote_no_outer_ceiling_counterexample :
    (QuoteShipment.execute exQuoteEnv fractionalQuoteRequest).fst = Except.ok
      { originCityId := "city-a", destinationCityId := "city-b"
        packageWeightKg := 11 / 2, packageLengthCm := 10, packageWidthCm := 10
        packageHeightCm := 10, calculatedWeightKg := 11 / 2, quotedValue := 55000 }
    ∧ mathCeil (max ((11 : ℚ) / 2) (mathCeil ((10 : ℚ) * 10 * 10 / 2500))) * 10000 = 60000
    ∧ (55000 : ℚ) ≠ 60000 := by
  refine ⟨?_, by norm_num [mathCeil, Rat.ceil], by norm_num⟩
  rw [execute_fresh_eq exQuoteEnv fractionalQuoteRequest cityA cityB rateXY
    (by decide) rfl rfl rfl rfl]
  norm_num [fractionalQuoteRequest, cityA, cityB, rateXY, mathCeil, Rat.ceil]

/-- C3 (amended): on a fresh computation for a valid pair, `quote()`
returns `quotedValue = max(weightKg, ceil(l*w*h/2500)) * pricePerKg`
exactly — the weight used for pricing is the un-ceiled max, which may be
non-integral (e.g. 5.5 kg). -/
theorem quote_fresh_quoted_value_no_outer_ceiling (env : QuoteEnv)
    (request : QuoteShipmentRequest) (originCity destinationCity : City) (rate : Rate)
    (hne : request.originCityId ≠ request.destinationCityId)
    (hmiss : env.cacheGet = CacheGetOutcome.miss)
    (horigin : env.findCityById request.originCityId = some originCity)
    (hdest : env.findCityById request.destinationCityId = some destinationCity)
    (hrate : env.findRateByZoneIds originCity.zoneId destinationCity.zoneId = some rate) :
    ∃ response, (QuoteShipment.execute env request).fst = Except.ok response
      ∧ response.quotedValue = max request.packageWeightKg
          (mathCeil (request.packageLengthCm * request.packageWidthCm *
            request.packageHeightCm / 2500)) * rate.pricePerKg
      ∧ response.calculatedWeightKg = max request.packageWeightKg
          (mathCeil (request.packageLengthCm * request.packageWidthCm *
            request.packageHeightCm / 2500)) := by
  refine ⟨_, execute_fresh_eq env request originCity destinationCity rate
    hne hmiss horigin hdest hrate, rfl, rfl⟩

/-- Witness for the amended C3: at 5.5 kg with 10x10x10 cm and rate 10000,
the returned `quotedValue` is `max(5.5, 1) * 10000 = 55000`. -/
theorem quote_fresh_quoted_value_fractional_weight_witness :
    (∃ response,
        (QuoteShipment.execute exQuoteEnv fractionalQuoteRequest).fst = Except.ok response
        ∧ response.quotedValue = max fractionalQuoteRequest.packageWeightKg
            (mathCeil (fractionalQuoteRequest.packageLengthCm *
              fractionalQuoteRequest.packageWidthCm *
              fractionalQuoteRequest.packageHeightCm / 2500)) * rateXY.pricePerKg
        ∧ response.calculatedWeightKg = max fractionalQuoteRequest.packageWeightKg
            (mathCeil (fractionalQuoteRequest.packageLengthCm *
              fractionalQuoteRequest.packageWidthCm *
              fractionalQuoteRequest.packageHeightCm / 2500)))
    ∧ max fractionalQuoteRequest.packageWeightKg
        (mathCeil (fractionalQuoteRequest.packageLengthCm *
          fractionalQuoteRequest.packageWidthCm *
          fractionalQuoteRequest.packageHeightCm / 2500)) * rateXY.pricePerKg = 55000 :=
  ⟨quote_fresh_quoted_value_no_outer_ceiling exQuoteEnv fractionalQuoteRequest cityA cityB
      rateXY (by decide) rfl rfl rfl rfl,
    by norm_num [fractionalQuoteRequest, rateXY, mathCeil, Rat.ceil]⟩

/-- C7: a request with equal origin and destination city ids is rejected
with the same-origin-destination error before any cache or repository
access, whatever the cache holds. -/
theorem quote_same_origin_destination_rejected_without_access (env : QuoteEnv)
    (request : QuoteShipmentRequest)
    (h : request.originCityId = request.destinationCityId) :
    QuoteShipment.execute env request =
      (Except.error QuoteError.sameOriginDestinationCity, []) := by
  unfold QuoteShipment.execute
  rw [if_pos h]

/-- Witness for C7: equal city ids are rejected with no effects even with
a warm cache. -/
theorem quote_same_origin_destination_rejected_witness :
    QuoteShipment.execute hitQuoteEnv sameCityQuoteRequest =
      (Except.error QuoteError.sameOriginDestinationCity, []) :=
  quote_same_origin_destination_rejected_without_access hitQuoteEnv sameCityQuoteRequest rfl

/-- C8: cache failures never change `quote()`'s outcome: a failing cache
read behaves exactly like a miss (same result, same subsequent calls),
and a failing cache write after a fresh computation changes nothing about
what is returned. -/
theorem quote_cache_failures_nonfatal (env : QuoteEnv) (request : QuoteShipmentRequest) :
    QuoteShipment.execute { env with cacheGet := CacheGetOutcome.cacheError } request =
      QuoteShipment.execute { env with cacheGet := CacheGetOutcome.miss } request
    ∧ QuoteShipment.execute { env with cacheSet := CacheSetOutcome.cacheError } request =
      QuoteShipment.execute { env with cacheSet := CacheSetOutcome.ok } request := by
  constructor
  · unfold QuoteShipment.execute
    split
    · rfl
    · rfl
  · rfl

/-- C2 counterexample: with `wsA` (not open) and `wsB` (open) subscribed
to `ship-1`, publish sends only to `wsB` but does not unregister `wsA`:
the registry still contains `wsA` afterwards, contradicting the claim
that a non-open subscriber is unregistered by publish. -/
theorem publish_does_not_unregister_counterexample :
    wsA ∈ (WebSocketService.notifyShipmentStatusUpdate onlyWsBOpen twoSubscriberState
        "ship-1" exMessage).connections "ship-1"
    ∧ onlyWsBOpen wsA = false
    ∧ (WebSocketService.notifyShipmentStatusUpdate onlyWsBOpen twoSubscriberState
        "ship-1" exMessage).sentTo = {wsB} := by
  refine ⟨?_, rfl, ?_⟩
  · simp [WebSocketService.notifyShipmentStatusUpdate, twoSubscriberState,
      WebSocketService.registerConnection]
  · decide

/-- C2 (amended): publish delivers the serialized event to exactly the
open subscribers of the shipment and leaves the registry unchanged: a
subscriber whose connection is not open is skipped, not unregistered
(unregistration happens in the `close`/`error` handlers installed at
registration time, not in publish). -/
theorem publish_skips_closed_and_delivers_to_open (isOpen : WebSocketConn → Bool)
    (conns : ShipmentConnections) (shipmentId : String)
    (message : ShipmentStatusUpdateMessage) :
    (WebSocketService.notifyShipmentStatusUpdate isOpen conns shipmentId
        message).connections = conns
    ∧ (∀ ws ∈ conns shipmentId, isOpen ws = true →
        ws ∈ (WebSocketService.notifyShipmentStatusUpdate isOpen conns shipmentId
          message).sentTo)
    ∧ (∀ ws ∈ (WebSocketService.notifyShipmentStatusUpdate isOpen conns shipmentId
          message).sentTo, ws ∈ conns shipmentId ∧ isOpen ws = true)
    ∧ (WebSocketService.notifyShipmentStatusUpdate isOpen conns shipmentId
        message).payload = serializeMessage message := by
  refine ⟨rfl, ?_, ?_, rfl⟩
  · intro ws hmem hopen
    simp only [WebSocketService.notifyShipmentStatusUpdate, Finset.mem_filter]
    exact ⟨hmem, hopen⟩
  · intro ws hmem
    simpa only [WebSocketService.notifyShipmentStatusUpdate, Finset.mem_filter] using hmem

/-- Witness for the amended C2: on the two-subscriber state with only
`wsB` open, the registry is unchanged and `wsB` receives the event. -/
theorem publish_skips_closed_witness :
    (WebSocketService.notifyShipmentStatusUpdate onlyWsBOpen twoSubscriberState
        "ship-1" exMessage).connections = twoSubscriberState
    ∧ wsB ∈ (WebSocketService.notifyShipmentStatusUpdate onlyWsBOpen twoSubscriberState
        "ship-1" exMessage).sentTo :=
  ⟨(publish_skips_closed_and_delivers_to_open onlyWsBOpen twoSubscriberState "ship-1"
      exMessage).1,
    (publish_skips_closed_and_delivers_to_open onlyWsBOpen twoSubscriberState "ship-1"
      exMessage).2.1 wsB (by decide) rfl⟩

/-- C5 counterexample: registering the same connection for two different
shipment ids leaves it in both subscriber sets — `registerConnection`
never removes a connection from other shipments' sets. -/
theorem connection_in_two_subscriber_sets_counterexample :
    wsA ∈ runRegistryOps allOpen
        [RegistryOp.register "ship-1" wsA, RegistryOp.register "ship-2" wsA]
        emptyConnections "ship-1"
    ∧ wsA ∈ runRegistryOps allOpen
        [RegistryOp.register "ship-1" wsA, RegistryOp.register "ship-2" wsA]
        emptyConnections "ship-2"
    ∧ ("ship-1" : String) ≠ "ship-2" := by decide

/-- Helper: a registry operation only adds `ws` to the set of shipment
`S` when it is `register S ws`. -/
theorem mem_applyRegistryOp (isOpen : WebSocketConn → Bool) (conns : ShipmentConnections)
    (op : RegistryOp) (S : String) (ws : WebSocketConn)
    (h : ws ∈ applyRegistryOp isOpen conns op S) :
    ws ∈ conns S ∨ op = RegistryOp.register S ws := by
  cases op with
  | register S1 w1 =>
    by_cases hS : S = S1
    · subst hS
      simp [applyRegistryOp, WebSocketService.registerConnection, Finset.mem_insert] at h
      rcases h with h | h
      · subst h
        exact Or.inr rfl
      · exact Or.inl h
    · simp only [applyRegistryOp, WebSocketService.registerConnection, if_neg hS] at h
      exact Or.inl h
  | unregister S1 w1 =>
    by_cases hS : S = S1
    · subst hS
      simp only [applyRegistryOp, WebSocketService.removeConnection, if_pos rfl] at h
      exact Or.inl (Finset.mem_of_mem_erase h)
    · simp only [applyRegistryOp, WebSocketService.removeConnection, if_neg hS] at h
      exact Or.inl h
  | publish S1 m =>
    exact Or.inl h

/-- Helper: membership after running a sequence of registry operations
comes from the initial state or from a `register` operation in the
sequence. -/
theorem mem_runRegistryOps (isOpen : WebSocketConn → Bool) (ops : List RegistryOp)
    (conns : ShipmentConnections) (S : String) (ws : WebSocketConn)
    (h : ws ∈ runRegistryOps isOpen ops conns S) :
    ws ∈ conns S ∨ RegistryOp.register S ws ∈ ops := by
  induction ops generalizing conns with
  | nil => exact Or.inl h
  | cons op rest ih =>
    rcases ih (applyRegistryOp isOpen conns op) h with h1 | h1
    · rcases mem_applyRegistryOp isOpen conns op S ws h1 with h2 | h2
      · exact Or.inl h2
      · exact Or.inr (h2 ▸ List.mem_cons_self op rest)
    · exact Or.inr (List.mem_cons_of_mem op h1)

/-- C5 (amended): the registry itself does not enforce the
one-shipment-per-connection invariant (see the counterexample); the
invariant holds exactly for histories in which every `register` of a
given connection uses a single shipment id: then, in any reachable state,
that connection appears only in that shipment's subscriber set. -/
theorem single_shipment_per_connection_invariant (isOpen : WebSocketConn → Bool)
    (ops : List RegistryOp) (ws : WebSocketConn) (S0 : String)
    (hone : ∀ S, RegistryOp.register S ws ∈ ops → S = S0)
    (S : String) (hS : ws ∈ runRegistryOps isOpen ops emptyConnections S) : S = S0 := by
  rcases mem_runRegistryOps isOpen ops emptyConnections S ws hS with h | h
  · exact absurd h (Finset.not_mem_empty ws)
  · exact hone S h

/-- Witness for the amended C5: a history registering `wsA` only under
`ship-1` (with an unrelated publish) keeps `wsA` only in `ship-1`'s
set. -/
theorem single_shipment_per_connection_invariant_witness :
    ("ship-1" : String) = "ship-1" :=
  single_shipment_per_connection_invariant allOpen
    [RegistryOp.register "ship-1" wsA, RegistryOp.publish "ship-2" exMessage] wsA "ship-1"
    (by
      intro S h
      simp only [List.mem_cons, List.not_mem_nil, or_false, RegistryOp.register.injEq,
        reduceCtorEq] at h
      exact h.1)
    "ship-1" (by decide)

/-- C10: registering the identical connection twice for the same shipment
is idempotent — the state equals that after a single register — and a
subsequent publish (with the connection open) sends it exactly one
message. -/
theorem register_idempotent_single_delivery (shipmentId : String) (ws : WebSocketConn)
    (conns : ShipmentConnections) (isOpen : WebSocketConn → Bool)
    (message : ShipmentStatusUpdateMessage) :
    WebSocketService.registerConnection shipmentId ws
        (WebSocketService.registerConnection shipmentId ws conns)
      = WebSocketService.registerConnection shipmentId ws conns
    ∧ (isOpen ws = true →
        ((WebSocketService.notifyShipmentStatusUpdate isOpen
            (WebSocketService.registerConnection shipmentId ws
              (WebSocketService.registerConnection shipmentId ws conns))
            shipmentId message).sentTo.filter (fun c => c = ws)).card = 1) := by
  constructor
  · funext k
    by_cases h : k = shipmentId <;>
      simp [WebSocketService.registerConnection, h, Finset.insert_idem]
  · intro hopen
    have hmem : ws ∈ (WebSocketService.notifyShipmentStatusUpdate isOpen
        (WebSocketService.registerConnection shipmentId ws
          (WebSocketService.registerConnection shipmentId ws conns))
        shipmentId message).sentTo := by
      simp [WebSocketService.notifyShipmentStatusUpdate,
        WebSocketService.registerConnection, Finset.mem_filter, hopen]
    rw [Finset.filter_eq', if_pos hmem, Finset.card_singleton]

/-- Witness for C10: double registration of `wsA` on the empty registry
equals single registration, and a publish sends `wsA` exactly one
message. -/
theorem register_idempotent_single_delivery_witness :
    WebSocketService.registerConnection "ship-1" wsA
        (WebSocketService.registerConnection "ship-1" wsA emptyConnections)
      = WebSocketService.registerConnection "ship-1" wsA emptyConnections
    ∧ ((WebSocketService.notifyShipmentStatusUpdate allOpen
          (WebSocketService.registerConnection "ship-1" wsA
            (WebSocketService.registerConnection "ship-1" wsA emptyConnections))
          "ship-1" exMessage).sentTo.filter (fun c => c = wsA)).card = 1 :=
  ⟨(register_idempotent_single_delivery "ship-1" wsA emptyConnections allOpen exMessage).1,
    (register_idempotent_single_delivery "ship-1" wsA emptyConnections allOpen
      exMessage).2 rfl⟩

/-- C6: the subscription gate rejects with NotFound when the shipment is
absent and with an Authorization failure when `shipment.userId` differs
from the requesting user; in both cases the route closes the connection
with code 1008 and the error message, never registers, and leaves the
registry unchanged. -/
theorem subscription_gate_rejection_no_register (env : TrackingEnv)
    (conns : ShipmentConnections) (shipmentId userId : String)
    (connection : WebSocketConn) :
    (env.findShipmentById shipmentId = none →
      GetShipmentTrackingDetails.execute env shipmentId userId =
        Except.error (TrackingError.notFound "Shipment not found")
      ∧ (websocketRoutesHandler env conns shipmentId userId connection).connections = conns
      ∧ (websocketRoutesHandler env conns shipmentId userId connection).registered = false
      ∧ (websocketRoutesHandler env conns shipmentId userId connection).closedWith =
          some (1008, "Shipment not found"))
    ∧ (∀ shipment, env.findShipmentById shipmentId = some shipment →
        shipment.userId ≠ userId →
        GetShipmentTrackingDetails.execute env shipmentId userId =
          Except.error
            (TrackingError.authorization "Access denied to this shipment's details")
        ∧ (websocketRoutesHandler env conns shipmentId userId connection).connections = conns
        ∧ (websocketRoutesHandler env conns shipmentId userId connection).registered = false
        ∧ (websocketRoutesHandler env conns shipmentId userId connection).closedWith =
            some (1008, "Access denied to this shipment's details")
        ∧ (websocketRoutesHandler env conns shipmentId userId connection).errorSent =
            some ("\x7b\"error\":\"" ++ "Access denied to this shipment's details" ++
              "\"\x7d")) := by
  constructor
  · intro habsent
    have hexec : GetShipmentTrackingDetails.execute env shipmentId userId =
        Except.error (TrackingError.notFound "Shipment not found") := by
      simp [GetShipmentTrackingDetails.execute, habsent]
    exact ⟨hexec, by simp [websocketRoutesHandler, hexec, TrackingError.message]⟩
  · intro shipment hsome hne
    have hexec : GetShipmentTrackingDetails.execute env shipmentId userId =
        Except.error
          (TrackingError.authorization "Access denied to this shipment's details") := by
      simp [GetShipmentTrackingDetails.execute, hsome, hne]
    exact ⟨hexec, by simp [websocketRoutesHandler, hexec, TrackingError.message]⟩

/-- Witness for C6: `ship-1` exists, is owned by `user-1`, and a tracking
subscription by `user-2` is rejected with the Authorization error, closes
with 1008, and leaves the empty registry empty. -/
theorem subscription_gate_rejection_witness :
    GetShipmentTrackingDetails.execute exTrackingEnv "ship-1" "user-2" =
      Except.error (TrackingError.authorization "Access denied to this shipment's details")
    ∧ (websocketRoutesHandler exTrackingEnv emptyConnections "ship-1" "user-2"
        wsA).connections = emptyConnections
    ∧ (websocketRoutesHandler exTrackingEnv emptyConnections "ship-1" "user-2"
        wsA).registered = false
    ∧ (websocketRoutesHandler exTrackingEnv emptyConnections "ship-1" "user-2"
        wsA).closedWith = some (1008, "Access denied to this shipment's details")
    ∧ (websocketRoutesHandler exTrackingEnv emptyConnections "ship-1" "user-2"
        wsA).errorSent =
        some ("\x7b\"error\":\"" ++ "Access denied to this shipment's details" ++ "\"\x7d") :=
  (subscription_gate_rejection_no_register exTrackingEnv emptyConnections "ship-1" "user-2"
    wsA).2 exShipment rfl (by decide)

/-- C9: when the shipment and the status exist and the shipment's current
status already equals the requested one, the status-transition use case
returns successfully having performed only the two lookups: the
repository's `updateStatus` (the trigger point for history rows and
notifications) is never invoked. -/
theorem update_status_same_status_no_side_effects (env : UpdateEnv)
    (shipmentId newStatusId : String) (shipment : Shipment)
    (newStatus : ShipmentStatus)
    (hship : env.findShipmentById shipmentId = some shipment)
    (hstatus : env.findStatusById newStatusId = some newStatus)
    (hsame : shipment.currentStatusId = newStatus.id) :
    UpdateShipmentStatus.execute env shipmentId newStatusId =
      (Except.ok (), [UpdateEffect.findShipmentById shipmentId,
        UpdateEffect.findStatusById newStatusId])
    ∧ ∀ s t, UpdateEffect.updateStatus s t ∉
        (UpdateShipmentStatus.execute env shipmentId newStatusId).snd := by
  have hexec : UpdateShipmentStatus.execute env shipmentId newStatusId =
      (Except.ok (), [UpdateEffect.findShipmentById shipmentId,
        UpdateEffect.findStatusById newStatusId]) := by
    simp [UpdateShipmentStatus.execute, hship, hstatus, hsame]
  refine ⟨hexec, ?_⟩
  intro s t hmem
  rw [hexec] at hmem
  simp at hmem

/-- Witness for C9: updating `ship-1` (currently in status `st-1`) to
`st-1` performs only the two lookups. -/
theorem update_status_same_status_witness :
    UpdateShipmentStatus.execute exUpdateEnv "ship-1" "st-1" =
      (Except.ok (), [UpdateEffect.findShipmentById "ship-1",
        UpdateEffect.findStatusById "st-1"])
    ∧ ∀ s t, UpdateEffect.updateStatus s t ∉
        (UpdateShipmentStatus.execute exUpdateEnv "ship-1" "st-1").snd :=
  update_status_same_status_no_side_effects exUpdateEnv "ship-1" "st-1" exShipment
    statusQuoted rfl rfl rfl

/-- C4 counterexample: when the initial connection fails,
`startListening()` resolves normally — the error is logged but not
surfaced to the caller, contradicting the claim that the failure is
reported to the caller. -/
theorem startListening_swallows_connection_error_counterexample :
    PostgresNotificationService.startListening
        (ListenConnectOutcome.connectionFailed "connection refused") =
      { errorThrownToCaller := none, connectionAttempts := 1, errorLogged := true
        listening := false }
    ∧ (PostgresNotificationService.startListening
        (ListenConnectOutcome.connectionFailed
          "connection refused")).errorThrownToCaller.isSome = false :=
  ⟨rfl, rfl⟩

/-- C4 (amended): if the initial connection cannot be established,
`startListening()` does not retry internally (a single attempt is made),
logs the error, and returns normally — the failure is swallowed, not
reported to its caller; restart is impossible to delegate because the
caller never observes the failure. -/
theorem startListening_no_retry_no_rethrow (message : String) :
    PostgresNotificationService.startListening
        (ListenConnectOutcome.connectionFailed message) =
      { errorThrownToCaller := none, connectionAttempts := 1, errorLogged := true
        listening := false } :=
  rfl

end Shipping
